import Mathlib

/-!
# MenuSee backend — shallow embedding and verification

Shallow embedding of the Convex backend of the MenuSee repository
(`convex/mutations.ts`, `convex/actions.ts`, `convex/queries.ts`) and proofs
about its scan/dish state machines, quota accounting, worker pipeline and
cancellation operations.

Modelling conventions:
* A single scan together with its dishes is modelled by `SysState`.  Dish
  documents are a `List Dish`; a dish's document id is its index in the list
  (dishes are only ever appended, matching insertion order in the store).
* Each Convex *mutation* is one transaction, so it is embedded as one total
  function on the state.  Convex *actions* (`processScanPipeline`,
  `generateDishImage`, ...) are sequences of mutations; they are embedded as
  compositions of the mutation functions, with the intermediate committed
  states exposed where a claim depends on them.
* `ctx.scheduler.runAfter(0, internal.actions.generateDishImage, ...)` is
  modelled by a multiset `jobs : List Nat` of scheduled worker invocations
  (dish indices); running a worker consumes one scheduled job.
* USD amounts are embedded as `ℚ`.  Wall-clock timestamps (`createdAt`,
  `completedAt`, `imageGeneratedAt`) and storage blob ids are irrelevant to
  every claim and are omitted; the re-hosted storage URL produced by
  `ctx.storage.store`/`getUrl` is modelled by the provider URL.
-/

namespace MenuSee

/-- Scan `status` union type (`convex/mutations.ts`, `updateScanStatus`). -/
inductive ScanStatus
  | pending
  | uploading
  | processing
  | extracting
  | generating
  | completed
  | failed
deriving DecidableEq, Repr

/-- Dish `imageStatus` union type (`convex/mutations.ts`, `updateDishImage`). -/
inductive ImageStatus
  | pending
  | queued
  | generating
  | completed
  | failed
  | skipped
deriving DecidableEq, Repr

/-- A `menuScans` document (fields relevant to the backend logic). -/
structure Scan where
  status : ScanStatus
  statusMessage : Option String := none
  errorMessage : Option String := none
  restaurantName : Option String := none
  totalDishes : Nat := 0
  dishesExtracted : Nat := 0
  imagesGenerated : Nat := 0
  imagesRequested : Nat := 0
  estimatedCostUsd : ℚ := 0
  actualCostUsd : ℚ := 0
deriving DecidableEq, Repr

/-- A `dishes` document (fields relevant to the backend logic). -/
structure Dish where
  name : String
  description : Option String := none
  price : Option String := none
  sectionName : Option String := none
  displayOrder : Nat
  imageStatus : ImageStatus
  imageUrl : Option String := none
  imageProvider : Option String := none
  imageCostUsd : Option ℚ := none
  imageError : Option String := none
deriving DecidableEq, Repr

/-- One scan plus its dish documents plus the scheduled worker jobs.
A dish's document id is its index in `dishes`. -/
structure SysState where
  scan : Scan
  dishes : List Dish
  jobs : List Nat
deriving DecidableEq, Repr

/-- Configuration surface (`convex/config.ts`). -/
structure Config where
  AUTO_IMAGE_LIMIT : Nat
  MAX_IMAGES_PER_SCAN : Nat
  VISION_PARSE : ℚ
  IMAGE_OPENAI : ℚ
  IMAGE_NANO_BANANA : ℚ
deriving DecidableEq, Repr

/-- Modelled from the spec: `convex/config.ts` is not among the sources; the
constant values are the ones quoted verbatim in the repository README
(`AUTO_IMAGE_LIMIT: 10`, `MAX_IMAGES_PER_SCAN: 50`, costs in USD). -/
def CONFIG : Config :=
  { AUTO_IMAGE_LIMIT := 10
    MAX_IMAGES_PER_SCAN := 50
    VISION_PARSE := 1/100
    IMAGE_OPENAI := 4/100
    IMAGE_NANO_BANANA := 2/100 }

/-! ## Mutations (`convex/mutations.ts`) -/

/-- `updateScanStatus`: patches `status`, optionally `statusMessage` and
`errorMessage` (a field is patched only when the argument is provided). -/
def updateScanStatus (status : ScanStatus) (statusMessage errorMessage : Option String)
    (s : Scan) : Scan :=
  { s with
    status := status
    statusMessage :=
      match statusMessage with
      | some m => some m
      | none => s.statusMessage
    errorMessage :=
      match errorMessage with
      | some m => some m
      | none => s.errorMessage }

/-- Argument record of `updateScanProgress`; `none` means the argument was not
passed, so the corresponding field is left untouched. -/
structure ProgressArgs where
  totalDishes : Option Nat := none
  dishesExtracted : Option Nat := none
  imagesGenerated : Option Nat := none
  imagesRequested : Option Nat := none
  restaurantName : Option String := none
  addActualCost : Option ℚ := none
  addEstimatedCost : Option ℚ := none

/-- `updateScanProgress`: patches the provided counter fields; the two cost
deltas are guarded by a JavaScript truthiness check (`if (args.addActualCost)`),
so a zero delta is not applied. -/
def updateScanProgress (a : ProgressArgs) (s : Scan) : Scan :=
  { s with
    totalDishes := a.totalDishes.getD s.totalDishes
    dishesExtracted := a.dishesExtracted.getD s.dishesExtracted
    imagesGenerated := a.imagesGenerated.getD s.imagesGenerated
    imagesRequested := a.imagesRequested.getD s.imagesRequested
    restaurantName :=
      match a.restaurantName with
      | some r => some r
      | none => s.restaurantName
    actualCostUsd :=
      match a.addActualCost with
      | some c => if c = 0 then s.actualCostUsd else s.actualCostUsd + c
      | none => s.actualCostUsd
    estimatedCostUsd :=
      match a.addEstimatedCost with
      | some c => if c = 0 then s.estimatedCostUsd else s.estimatedCostUsd + c
      | none => s.estimatedCostUsd }

/-- Argument record of `updateDishImage` (the patch applied to a dish). -/
structure DishPatch where
  imageStatus : ImageStatus
  imageUrl : Option String := none
  imageProvider : Option String := none
  imageCostUsd : Option ℚ := none
  imageError : Option String := none

/-- `updateDishImage`: patches `imageStatus` and any provided optional field. -/
def updateDishImage (p : DishPatch) (d : Dish) : Dish :=
  { d with
    imageStatus := p.imageStatus
    imageUrl :=
      match p.imageUrl with
      | some u => some u
      | none => d.imageUrl
    imageProvider :=
      match p.imageProvider with
      | some v => some v
      | none => d.imageProvider
    imageCostUsd :=
      match p.imageCostUsd with
      | some c => some c
      | none => d.imageCostUsd
    imageError :=
      match p.imageError with
      | some e => some e
      | none => d.imageError }

/-- `ctx.db.patch(dishId, { imageStatus })`: set the image status of the dish
with document id `j`, when it exists. -/
def setDishStatus (ds : List Dish) (j : Nat) (st : ImageStatus) : List Dish :=
  match ds.get? j with
  | some d => ds.set j { d with imageStatus := st }
  | none => ds

/-- Document ids of the dishes whose `imageStatus` is `pending` or `skipped`,
in store order (the `pendingDishes` filter of `queueRemainingImages`). -/
def pendingIdxs (ds : List Dish) : List Nat :=
  (ds.enum.filter fun p =>
    decide (p.2.imageStatus = ImageStatus.pending ∨ p.2.imageStatus = ImageStatus.skipped)).map
    Prod.fst

/-- Return value of `queueRemainingImages`. -/
structure QueueResult where
  queued : Nat
  dishIds : List Nat
  message : String
deriving DecidableEq, Repr

/-- Number of dishes whose `imageStatus` equals `st`. -/
def countStatus (st : ImageStatus) (ds : List Dish) : Nat :=
  ds.countP fun d => decide (d.imageStatus = st)

/-- `queueRemainingImages` mutation: computes the free quota slots under
`MAX_IMAGES_PER_SCAN`, marks that many `pending`/`skipped` dishes (in store
order) as `queued`, and bumps `imagesRequested`, `estimatedCostUsd` and the
scan status in the same transaction.  `remainingSlots`/`toQueue` are JavaScript
numbers, hence embedded as `Int`. -/
def queueRemainingImages (cfg : Config) (σ : SysState) : SysState × QueueResult :=
  let pending := pendingIdxs σ.dishes
  let alreadyRequested := σ.scan.imagesRequested
  let remainingSlots : Int := (cfg.MAX_IMAGES_PER_SCAN : Int) - (alreadyRequested : Int)
  let toQueue : Int := min (pending.length : Int) remainingSlots
  if toQueue = 0 then
    (σ, { queued := 0, dishIds := [], message := "Max images per scan reached" })
  else
    let idxs := pending.take toQueue.toNat
    let queued := idxs.length
    let dishes' := idxs.foldl (fun ds j => setDishStatus ds j ImageStatus.queued) σ.dishes
    let estimatedCost := (queued : ℚ) * cfg.IMAGE_OPENAI
    ({ σ with
        dishes := dishes'
        scan := { σ.scan with
          imagesRequested := alreadyRequested + queued
          estimatedCostUsd := σ.scan.estimatedCostUsd + estimatedCost
          status := ScanStatus.generating } },
      { queued := queued
        dishIds := idxs
        message := "Queued " ++ toString queued ++ " images for generation" })

/-- Per-dish patch applied by `forceCompleteScan`: `queued` and `generating`
dishes are marked `skipped`. -/
def forceDish (d : Dish) : Dish :=
  if d.imageStatus = ImageStatus.queued ∨ d.imageStatus = ImageStatus.generating then
    { d with imageStatus := ImageStatus.skipped }
  else d

/-- `forceCompleteScan` mutation: skip stuck (`queued`/`generating`) dishes,
overwrite `imagesGenerated` with the number of `completed` dishes and complete
the scan. -/
def forceCompleteScan (σ : SysState) : SysState :=
  let completedImages := countStatus ImageStatus.completed σ.dishes
  { σ with
    dishes := σ.dishes.map forceDish
    scan := { σ.scan with
      status := ScanStatus.completed
      imagesGenerated := completedImages
      statusMessage := some ("Completed with " ++ toString completedImages ++ " images") } }

/-- Per-dish patch applied by `stopImageGeneration`: only `queued` dishes are
marked `skipped`; `generating` dishes are left alone. -/
def stopDish (d : Dish) : Dish :=
  if d.imageStatus = ImageStatus.queued then { d with imageStatus := ImageStatus.skipped }
  else d

/-- `stopImageGeneration` mutation: skip `queued` dishes, overwrite
`imagesGenerated` with the number of `completed` dishes and complete the scan,
recording both counts in the status message. -/
def stopImageGeneration (σ : SysState) : SysState :=
  let skipped := countStatus ImageStatus.queued σ.dishes
  let completed := countStatus ImageStatus.completed σ.dishes
  { σ with
    dishes := σ.dishes.map stopDish
    scan := { σ.scan with
      status := ScanStatus.completed
      imagesGenerated := completed
      statusMessage := some
        ("Stopped - " ++ toString completed ++ " images completed, "
          ++ toString skipped ++ " skipped") } }

/-- `queueSingleDishImage` mutation.  `none` models the thrown
"Dish not found" error; `some (σ, false)` is the `{ queued: false }` early
return (idempotency guard or quota ceiling), which performs no write;
`some (_, true)` queues the dish, bumps `imagesRequested` and
`estimatedCostUsd`, and moves a `completed` scan back to `generating`. -/
def queueSingleDishImage (cfg : Config) (i : Nat) (σ : SysState) :
    Option (SysState × Bool) :=
  match σ.dishes.get? i with
  | none => none
  | some d =>
    if d.imageStatus = ImageStatus.completed ∨ d.imageStatus = ImageStatus.generating
        ∨ d.imageStatus = ImageStatus.queued then
      some (σ, false)
    else if cfg.MAX_IMAGES_PER_SCAN ≤ σ.scan.imagesRequested then
      some (σ, false)
    else
      some
        ({ σ with
            dishes := σ.dishes.set i { d with imageStatus := ImageStatus.queued }
            scan := { σ.scan with
              imagesRequested := σ.scan.imagesRequested + 1
              estimatedCostUsd := σ.scan.estimatedCostUsd + cfg.IMAGE_OPENAI
              status :=
                if σ.scan.status = ScanStatus.completed then ScanStatus.generating
                else σ.scan.status } },
          true)

/-! ## Actions (`convex/actions.ts`) -/

/-- Provider response of `callImageAPI`: an image URL plus the unit cost of
the selected provider variant. -/
structure ImageResult where
  imageUrl : String
  cost : ℚ
deriving DecidableEq, Repr

/-- Success path of the `generateDishImage` internal action, as the sequence
of mutations it runs: look the dish up, set it `generating`, call the provider
(its response is the `res` argument), store the image and mark the dish
`completed` with provider/cost, then increment the scan's `imagesGenerated`
and `actualCostUsd` and complete the scan once the generated count reaches
`imagesRequested`.  The code performs no check of the dish's current
`imageStatus`; the only no-op case is a missing dish (the thrown
"Dish not found" aborts the action before any write). -/
def generateDishImageOk (i : Nat) (res : ImageResult) (prov : String)
    (σ : SysState) : SysState :=
  match σ.dishes.get? i with
  | none => σ
  | some d =>
    let d1 := updateDishImage { imageStatus := ImageStatus.generating } d
    let d2 := updateDishImage
      { imageStatus := ImageStatus.completed
        imageUrl := some res.imageUrl
        imageProvider := some prov
        imageCostUsd := some res.cost } d1
    let newImagesGenerated := σ.scan.imagesGenerated + 1
    let s1 := updateScanProgress
      { imagesGenerated := some newImagesGenerated, addActualCost := some res.cost } σ.scan
    let s2 :=
      if σ.scan.imagesRequested ≤ newImagesGenerated then
        updateScanStatus ScanStatus.completed (some "All images generated!") none s1
      else s1
    { σ with dishes := σ.dishes.set i d2, scan := s2 }

/-- Failure path of the `generateDishImage` internal action (the provider,
download or storage call throws after the dish was set `generating`): the
catch block marks the dish `failed` with the error message, still increments
the scan's `imagesGenerated` (without any cost), and still performs the
completion transition, with a message noting the partial failure. -/
def generateDishImageFail (i : Nat) (err : String) (σ : SysState) : SysState :=
  match σ.dishes.get? i with
  | none => σ
  | some d =>
    let d1 := updateDishImage { imageStatus := ImageStatus.generating } d
    let d2 := updateDishImage
      { imageStatus := ImageStatus.failed, imageError := some err } d1
    let newImagesGenerated := σ.scan.imagesGenerated + 1
    let s1 := updateScanProgress { imagesGenerated := some newImagesGenerated } σ.scan
    let s2 :=
      if σ.scan.imagesRequested ≤ newImagesGenerated then
        updateScanStatus ScanStatus.completed
          (some "Processing complete (some images failed)") none s1
      else s1
    { σ with dishes := σ.dishes.set i d2, scan := s2 }

/-- Running the scheduled worker job for dish `i`, success outcome: the job is
consumed from the scheduler queue and the action body executes. -/
def runJobOk (i : Nat) (res : ImageResult) (prov : String) (σ : SysState) : SysState :=
  { generateDishImageOk i res prov σ with jobs := σ.jobs.erase i }

/-- Running the scheduled worker job for dish `i`, failure outcome. -/
def runJobFail (i : Nat) (err : String) (σ : SysState) : SysState :=
  { generateDishImageFail i err σ with jobs := σ.jobs.erase i }

/-- A menu item of the vision provider response. -/
structure MenuItem where
  name : String
  description : Option String := none
  price : Option String := none
deriving DecidableEq, Repr

/-- A section of the vision provider response. -/
structure MenuSection where
  name : String
  items : List MenuItem
deriving DecidableEq, Repr

/-- The vision extraction contract (`VisionMenuOutput`). -/
structure VisionMenuOutput where
  restaurantName : Option String := none
  sections : List MenuSection
  itemsFallback : Option (List MenuItem) := none
deriving DecidableEq, Repr

/-- `totalDishes` as computed by the pipeline: section item counts summed,
plus the fallback items. -/
def totalDishesOf (menu : VisionMenuOutput) : Nat :=
  (menu.sections.map fun s => s.items.length).sum + (menu.itemsFallback.getD []).length

/-- The order in which the pipeline iterates the extracted items: all section
items (tagged with their section name) first, then the fallback items
(with no section). -/
def flattenMenu (menu : VisionMenuOutput) : List (MenuItem × Option String) :=
  (menu.sections.map fun s => s.items.map fun it => (it, some s.name)).flatten
    ++ (menu.itemsFallback.getD []).map fun it => (it, none)

/-- The dish record `createDish` inserts for the item at `displayOrder = ord`:
`queued` when `ord < AUTO_IMAGE_LIMIT` (`shouldAutoGenerate`), else `pending`. -/
def mkDish (cfg : Config) (ord : Nat) (it : MenuItem × Option String) : Dish :=
  { name := it.1.name
    description := it.1.description
    price := it.1.price
    sectionName := it.2
    displayOrder := ord
    imageStatus :=
      if ord < cfg.AUTO_IMAGE_LIMIT then ImageStatus.queued else ImageStatus.pending }

/-- The dish-creation loop of the pipeline: inserts one dish per item with
sequential `displayOrder` starting at `ord`, collecting the document ids
(`nextId`, `nextId + 1`, ...) of the auto-queued dishes. -/
def createDishes (cfg : Config) :
    List (MenuItem × Option String) → Nat → Nat → List Dish × List Nat
  | [], _, _ => ([], [])
  | it :: rest, nextId, ord =>
    let d := mkDish cfg ord it
    let r := createDishes cfg rest (nextId + 1) (ord + 1)
    (d :: r.1, (if ord < cfg.AUTO_IMAGE_LIMIT then [nextId] else []) ++ r.2)

/-- State after the pipeline's `generating` transition (all of the success
path except the final zero-auto-queued completion check): status updates to
`processing` and `extracting`, vision cost and totals recorded, dish records
created, `imagesRequested` and estimated image cost set, status set to
`generating`, one worker job scheduled per auto-queued dish. -/
def pipelineMid (cfg : Config) (prov : String) (menu : VisionMenuOutput)
    (σ : SysState) : SysState :=
  let s1 := updateScanStatus ScanStatus.processing
    (some "Extracting menu items with AI...") none σ.scan
  let s2 := updateScanStatus ScanStatus.extracting
    (some "Creating dish records...") none s1
  let total := totalDishesOf menu
  let s3 := updateScanProgress
    { restaurantName := menu.restaurantName
      totalDishes := some total
      addActualCost := some cfg.VISION_PARSE } s2
  let created := createDishes cfg (flattenMenu menu) σ.dishes.length 0
  let imagesRequested := min total cfg.AUTO_IMAGE_LIMIT
  let estimatedImageCost := (imagesRequested : ℚ) *
    (if prov = "openai" then cfg.IMAGE_OPENAI else cfg.IMAGE_NANO_BANANA)
  let s5 := updateScanProgress
    { dishesExtracted := some total
      imagesRequested := some imagesRequested
      addEstimatedCost := some estimatedImageCost } s3
  let s6 := updateScanStatus ScanStatus.generating
    (some ("Generating images for " ++ toString imagesRequested ++ " dishes...")) none s5
  { scan := s6, dishes := σ.dishes ++ created.1, jobs := σ.jobs ++ created.2 }

/-- Success path of the `processScanPipeline` internal action: `pipelineMid`,
then — when the list of auto-queued dish ids is empty — a final transition to
`completed`. -/
def processScanPipelineOk (cfg : Config) (prov : String) (menu : VisionMenuOutput)
    (σ : SysState) : SysState :=
  let m := pipelineMid cfg prov menu σ
  if (createDishes cfg (flattenMenu menu) σ.dishes.length 0).2.isEmpty then
    { m with
      scan := updateScanStatus ScanStatus.completed
        (some "Menu processed successfully!") none m.scan }
  else m

/-- Failure path of `processScanPipeline` (missing image, vision provider
error or malformed response, all thrown before any dish is created): the catch
block sets status `failed` with the error message. -/
def pipelineFailed (err : String) (σ : SysState) : SysState :=
  { σ with scan := updateScanStatus ScanStatus.failed none (some err) σ.scan }

/-- The `startProcessingScan` action's own mutation: set status `processing`
(it then schedules `processScanPipeline`, modelled as a separate step). -/
def startProcessingScan (σ : SysState) : SysState :=
  { σ with
    scan := updateScanStatus ScanStatus.processing
      (some "Analyzing menu image...") none σ.scan }

/-- `generateRemainingImages` action: run the `queueRemainingImages` mutation
and schedule one worker job per queued dish id. -/
def generateRemainingImages (cfg : Config) (σ : SysState) : SysState × QueueResult :=
  let r := queueRemainingImages cfg σ
  if r.2.queued = 0 then r
  else ({ r.1 with jobs := r.1.jobs ++ r.2.dishIds }, r.2)

/-- `generateSingleDishImage` action: run the `queueSingleDishImage` mutation
and, when the dish was queued, schedule its worker job. -/
def generateSingleDishImage (cfg : Config) (i : Nat) (σ : SysState) :
    Option (SysState × Bool) :=
  match queueSingleDishImage cfg i σ with
  | none => none
  | some (σ', false) => some (σ', false)
  | some (σ', true) => some ({ σ' with jobs := σ'.jobs ++ [i] }, true)

/-- The scan as created by `createMenuScan`: status `pending`, zero counters,
the vision-parse cost pre-charged to `estimatedCostUsd`, no dishes, no jobs. -/
def initState (cfg : Config) : SysState :=
  { scan :=
      { status := ScanStatus.pending
        totalDishes := 0
        dishesExtracted := 0
        imagesGenerated := 0
        imagesRequested := 0
        estimatedCostUsd := cfg.VISION_PARSE
        actualCostUsd := 0 }
    dishes := []
    jobs := [] }

/-! ## Queries (`convex/queries.ts`) -/

/-- Progress percentage computed by the `getScan` query. -/
def getScanProgress (s : Scan) : ℚ :=
  match s.status with
  | ScanStatus.pending => 0
  | ScanStatus.uploading => 10
  | ScanStatus.processing => 25
  | ScanStatus.extracting => 50
  | ScanStatus.generating =>
    let imageProgress : ℚ :=
      if 0 < s.imagesRequested then
        ((s.imagesGenerated : ℚ) / (s.imagesRequested : ℚ)) * 40
      else 0
    60 + imageProgress
  | ScanStatus.completed => 100
  | ScanStatus.failed => 0

/-- Progress percentage computed by the `getScanWithDishes` query (the source
duplicates the same switch statement). -/
def getScanWithDishesProgress (s : Scan) : ℚ :=
  match s.status with
  | ScanStatus.pending => 0
  | ScanStatus.uploading => 10
  | ScanStatus.processing => 25
  | ScanStatus.extracting => 50
  | ScanStatus.generating =>
    let imageProgress : ℚ :=
      if 0 < s.imagesRequested then
        ((s.imagesGenerated : ℚ) / (s.imagesRequested : ℚ)) * 40
      else 0
    60 + imageProgress
  | ScanStatus.completed => 100
  | ScanStatus.failed => 0

/-! ## The operation step relation

One step per orchestration-level operation, each applied as a whole (every
Convex mutation commits atomically; an action is a fixed sequence of
mutations run by a single scheduled invocation).  Worker steps require a
scheduled job for the dish and consume it, matching the scheduler: the
`generateDishImage` internal action only ever runs because one of the three
queueing paths scheduled it. -/

inductive Step (cfg : Config) : SysState → SysState → Prop
  | start (σ : SysState) : Step cfg σ (startProcessingScan σ)
  | pipelineOk (σ : SysState) (prov : String) (menu : VisionMenuOutput)
      (hd : σ.dishes = []) (hj : σ.jobs = []) (hg : σ.scan.imagesGenerated = 0) :
      Step cfg σ (processScanPipelineOk cfg prov menu σ)
  | pipelineErr (σ : SysState) (err : String) : Step cfg σ (pipelineFailed err σ)
  | workerOk (σ : SysState) (i : Nat) (res : ImageResult) (prov : String)
      (hi : i ∈ σ.jobs) : Step cfg σ (runJobOk i res prov σ)
  | workerFail (σ : SysState) (i : Nat) (err : String)
      (hi : i ∈ σ.jobs) : Step cfg σ (runJobFail i err σ)
  | queueRemaining (σ : SysState) : Step cfg σ (generateRemainingImages cfg σ).1
  | queueSingle (σ : SysState) (i : Nat) (σ' : SysState) (b : Bool)
      (h : generateSingleDishImage cfg i σ = some (σ', b)) : Step cfg σ σ'
  | stop (σ : SysState) : Step cfg σ (stopImageGeneration σ)
  | force (σ : SysState) : Step cfg σ (forceCompleteScan σ)

/-- States reachable from a freshly created scan by any sequence of the
orchestration operations. -/
def Reachable (cfg : Config) (σ : SysState) : Prop :=
  Relation.ReflTransGen (Step cfg) (initState cfg) σ

/-! ## Helper lemmas -/

theorem countP_set_le_succ (p : α → Bool) (l : List α) (i : Nat) (a : α) :
    (l.set i a).countP p ≤ l.countP p + 1 := by
  induction l generalizing i with
  | nil => simp
  | cons x xs ih =>
    cases i with
    | zero =>
      simp only [List.set, List.countP_cons]
      cases hpa : p a <;> cases hpx : p x <;> simp <;> omega
    | succ n =>
      simp only [List.set, List.countP_cons]
      have := ih n
      omega

theorem countP_set_le (p : α → Bool) (l : List α) (i : Nat) (a : α) (h : p a = false) :
    (l.set i a).countP p ≤ l.countP p := by
  induction l generalizing i with
  | nil => simp
  | cons x xs ih =>
    cases i with
    | zero =>
      simp only [List.set, List.countP_cons, h]
      cases hpx : p x <;> simp
    | succ n =>
      simp only [List.set, List.countP_cons]
      have := ih n
      omega

theorem countCompleted_setDishStatus_le (ds : List Dish) (j : Nat) (st : ImageStatus)
    (h : st ≠ ImageStatus.completed) :
    countStatus ImageStatus.completed (setDishStatus ds j st)
      ≤ countStatus ImageStatus.completed ds := by
  unfold setDishStatus
  cases hget : ds.get? j with
  | none => exact Nat.le_refl _
  | some d =>
    exact countP_set_le _ ds j _ (by simp [h])

theorem countCompleted_foldl_queue_le (idxs : List Nat) (ds : List Dish) :
    countStatus ImageStatus.completed
        (idxs.foldl (fun ds j => setDishStatus ds j ImageStatus.queued) ds)
      ≤ countStatus ImageStatus.completed ds := by
  induction idxs generalizing ds with
  | nil => exact Nat.le_refl _
  | cons j rest ih =>
    exact Nat.le_trans (ih _) (countCompleted_setDishStatus_le ds j _ (by simp))

theorem countCompleted_map_stopDish (ds : List Dish) :
    countStatus ImageStatus.completed (ds.map stopDish)
      = countStatus ImageStatus.completed ds := by
  induction ds with
  | nil => rfl
  | cons d rest ih =>
    simp only [List.map_cons, countStatus, List.countP_cons] at *
    rw [ih]
    have : decide ((stopDish d).imageStatus = ImageStatus.completed)
        = decide (d.imageStatus = ImageStatus.completed) := by
      unfold stopDish
      by_cases h : d.imageStatus = ImageStatus.queued <;> simp [h]
    rw [this]

theorem countCompleted_map_forceDish (ds : List Dish) :
    countStatus ImageStatus.completed (ds.map forceDish)
      = countStatus ImageStatus.completed ds := by
  induction ds with
  | nil => rfl
  | cons d rest ih =>
    simp only [List.map_cons, countStatus, List.countP_cons] at *
    rw [ih]
    have : decide ((forceDish d).imageStatus = ImageStatus.completed)
        = decide (d.imageStatus = ImageStatus.completed) := by
      unfold forceDish
      by_cases h : d.imageStatus = ImageStatus.queued ∨ d.imageStatus = ImageStatus.generating
      · rcases h with h | h <;> simp [h]
      · simp [h]
    rw [this]

theorem countStatus_append (st : ImageStatus) (l₁ l₂ : List Dish) :
    countStatus st (l₁ ++ l₂) = countStatus st l₁ + countStatus st l₂ :=
  List.countP_append _ _ _

theorem createDishes_fst_length (cfg : Config) (items : List (MenuItem × Option String))
    (nid ord : Nat) : (createDishes cfg items nid ord).1.length = items.length := by
  induction items generalizing nid ord with
  | nil => rfl
  | cons it rest ih => simp [createDishes, ih]

theorem createDishes_fst_get? (cfg : Config) (items : List (MenuItem × Option String))
    (nid ord k : Nat) :
    (createDishes cfg items nid ord).1.get? k
      = (items.get? k).map (mkDish cfg (ord + k)) := by
  induction items generalizing nid ord k with
  | nil => simp [createDishes]
  | cons it rest ih =>
    cases k with
    | zero => simp [createDishes]
    | succ n =>
      simp only [createDishes, List.get?_cons_succ]
      rw [ih]
      have : ord + 1 + n = ord + (n + 1) := by omega
      rw [this]

theorem createDishes_snd_length (cfg : Config) (items : List (MenuItem × Option String))
    (nid ord : Nat) :
    (createDishes cfg items nid ord).2.length
      = min items.length (cfg.AUTO_IMAGE_LIMIT - ord) := by
  induction items generalizing nid ord with
  | nil => simp [createDishes]
  | cons it rest ih =>
    simp only [createDishes, List.length_append, List.length_cons]
    rw [ih]
    by_cases h : ord < cfg.AUTO_IMAGE_LIMIT <;> simp [h] <;> omega

theorem createDishes_fst_countCompleted (cfg : Config)
    (items : List (MenuItem × Option String)) (nid ord : Nat) :
    countStatus ImageStatus.completed (createDishes cfg items nid ord).1 = 0 := by
  induction items generalizing nid ord with
  | nil => rfl
  | cons it rest ih =>
    simp only [createDishes, countStatus, List.countP_cons] at *
    rw [ih]
    have : decide ((mkDish cfg ord it).imageStatus = ImageStatus.completed) = false := by
      unfold mkDish
      by_cases h : ord < cfg.AUTO_IMAGE_LIMIT <;> simp [h]
    simp [this]

theorem totalDishesOf_eq_length (menu : VisionMenuOutput) :
    totalDishesOf menu = (flattenMenu menu).length := by
  unfold totalDishesOf flattenMenu
  rw [List.length_append, List.length_map]
  congr 1
  induction menu.sections with
  | nil => rfl
  | cons s rest ih => simp [List.length_append, ih]

/-- Number of free quota slots actually used by `queueRemainingImages`
(as long as the quota ceiling has not been overshot). -/
def toQueueOf (cfg : Config) (σ : SysState) : Nat :=
  min (pendingIdxs σ.dishes).length
    (cfg.MAX_IMAGES_PER_SCAN - σ.scan.imagesRequested)

theorem queueRemainingImages_eq_zero (cfg : Config) (σ : SysState)
    (hreq : σ.scan.imagesRequested ≤ cfg.MAX_IMAGES_PER_SCAN)
    (h0 : toQueueOf cfg σ = 0) :
    queueRemainingImages cfg σ
      = (σ, { queued := 0, dishIds := [], message := "Max images per scan reached" }) := by
  unfold queueRemainingImages
  have hcast : min ((pendingIdxs σ.dishes).length : Int)
      ((cfg.MAX_IMAGES_PER_SCAN : Int) - (σ.scan.imagesRequested : Int)) = 0 := by
    unfold toQueueOf at h0
    omega
  simp [hcast]

theorem queueRemainingImages_eq_pos (cfg : Config) (σ : SysState)
    (hreq : σ.scan.imagesRequested ≤ cfg.MAX_IMAGES_PER_SCAN)
    (hpos : 0 < toQueueOf cfg σ) :
    queueRemainingImages cfg σ
      = ({ scan := { σ.scan with
              imagesRequested := σ.scan.imagesRequested + toQueueOf cfg σ,
              estimatedCostUsd := σ.scan.estimatedCostUsd
                + (toQueueOf cfg σ : ℚ) * cfg.IMAGE_OPENAI,
              status := ScanStatus.generating },
           dishes := ((pendingIdxs σ.dishes).take (toQueueOf cfg σ)).foldl
              (fun ds j => setDishStatus ds j ImageStatus.queued) σ.dishes,
           jobs := σ.jobs },
          { queued := toQueueOf cfg σ,
            dishIds := (pendingIdxs σ.dishes).take (toQueueOf cfg σ),
            message := "Queued " ++ toString (toQueueOf cfg σ)
              ++ " images for generation" }) := by
  unfold queueRemainingImages
  have hne : ¬ (min ((pendingIdxs σ.dishes).length : Int)
      ((cfg.MAX_IMAGES_PER_SCAN : Int) - (σ.scan.imagesRequested : Int)) = 0) := by
    unfold toQueueOf at hpos
    omega
  have htoNat : (min ((pendingIdxs σ.dishes).length : Int)
      ((cfg.MAX_IMAGES_PER_SCAN : Int) - (σ.scan.imagesRequested : Int))).toNat
      = toQueueOf cfg σ := by
    unfold toQueueOf
    omega
  have hlen : ((pendingIdxs σ.dishes).take (toQueueOf cfg σ)).length = toQueueOf cfg σ := by
    rw [List.length_take]
    unfold toQueueOf
    omega
  simp only [hne, if_false, htoNat, hlen]

/-! ## Counter invariant (claim C1, amended)

`imagesGenerated` plus the number of still-scheduled worker jobs never
exceeds `imagesRequested`; so does the number of `completed` dishes plus the
scheduled jobs; `imagesRequested` never exceeds `MAX_IMAGES_PER_SCAN`. -/

def CounterInv (cfg : Config) (σ : SysState) : Prop :=
  σ.scan.imagesGenerated + σ.jobs.length ≤ σ.scan.imagesRequested ∧
  countStatus ImageStatus.completed σ.dishes + σ.jobs.length ≤ σ.scan.imagesRequested ∧
  σ.scan.imagesRequested ≤ cfg.MAX_IMAGES_PER_SCAN

/-- Inversion of the `queueSingleDishImage` mutation: it either performs no
write at all (`queued: false`), or queues an eligible dish under the ceiling. -/
theorem queueSingleDishImage_inv (cfg : Config) (i : Nat) (σ σq : SysState) (b : Bool)
    (h : queueSingleDishImage cfg i σ = some (σq, b)) :
    (b = false ∧ σq = σ) ∨
    (b = true ∧ ∃ d, σ.dishes.get? i = some d ∧
      ¬(d.imageStatus = ImageStatus.completed ∨ d.imageStatus = ImageStatus.generating
        ∨ d.imageStatus = ImageStatus.queued) ∧
      σ.scan.imagesRequested < cfg.MAX_IMAGES_PER_SCAN ∧
      σq = { σ with
        dishes := σ.dishes.set i { d with imageStatus := ImageStatus.queued },
        scan := { σ.scan with
          imagesRequested := σ.scan.imagesRequested + 1,
          estimatedCostUsd := σ.scan.estimatedCostUsd + cfg.IMAGE_OPENAI,
          status :=
            if σ.scan.status = ScanStatus.completed then ScanStatus.generating
            else σ.scan.status } }) := by
  unfold queueSingleDishImage at h
  cases hget : σ.dishes.get? i with
  | none => rw [hget] at h; cases h
  | some d =>
    rw [hget] at h
    simp only at h
    split at h
    · left
      simp only [Option.some.injEq, Prod.mk.injEq] at h
      exact ⟨h.2.symm, h.1.symm⟩
    · split at h
      · left
        simp only [Option.some.injEq, Prod.mk.injEq] at h
        exact ⟨h.2.symm, h.1.symm⟩
      · right
        simp only [Option.some.injEq, Prod.mk.injEq] at h
        refine ⟨h.2.symm, d, rfl, by assumption, by omega, h.1.symm⟩

/-- Inversion of the `generateSingleDishImage` action: either nothing was
written and nothing scheduled, or the dish was queued and one worker job was
scheduled for it. -/
theorem generateSingleDishImage_inv (cfg : Config) (i : Nat) (σ σ' : SysState) (b : Bool)
    (h : generateSingleDishImage cfg i σ = some (σ', b)) :
    (b = false ∧ σ' = σ) ∨
    (b = true ∧ ∃ d, σ.dishes.get? i = some d ∧
      ¬(d.imageStatus = ImageStatus.completed ∨ d.imageStatus = ImageStatus.generating
        ∨ d.imageStatus = ImageStatus.queued) ∧
      σ.scan.imagesRequested < cfg.MAX_IMAGES_PER_SCAN ∧
      σ' = { σ with
        dishes := σ.dishes.set i { d with imageStatus := ImageStatus.queued },
        scan := { σ.scan with
          imagesRequested := σ.scan.imagesRequested + 1,
          estimatedCostUsd := σ.scan.estimatedCostUsd + cfg.IMAGE_OPENAI,
          status :=
            if σ.scan.status = ScanStatus.completed then ScanStatus.generating
            else σ.scan.status },
        jobs := σ.jobs ++ [i] }) := by
  unfold generateSingleDishImage at h
  cases hq : queueSingleDishImage cfg i σ with
  | none => rw [hq] at h; cases h
  | some p =>
    obtain ⟨σq, bq⟩ := p
    rw [hq] at h
    cases bq with
    | false =>
      simp only [Option.some.injEq, Prod.mk.injEq] at h
      rcases queueSingleDishImage_inv cfg i σ σq false hq with ⟨_, rfl⟩ | ⟨hb, _⟩
      · exact Or.inl ⟨h.2.symm, h.1.symm⟩
      · cases hb
    | true =>
      simp only [Option.some.injEq, Prod.mk.injEq] at h
      rcases queueSingleDishImage_inv cfg i σ σq true hq with ⟨hb, _⟩ | ⟨_, d, hget, hst, hlt, hσq⟩
      · cases hb
      · refine Or.inr ⟨h.2.symm, d, hget, hst, hlt, ?_⟩
        rw [← h.1, hσq]

theorem counterInv_step (cfg : Config)
    (hAM : cfg.AUTO_IMAGE_LIMIT ≤ cfg.MAX_IMAGES_PER_SCAN)
    {σ σ' : SysState} (hstep : Step cfg σ σ') (hinv : CounterInv cfg σ) :
    CounterInv cfg σ' := by
  obtain ⟨h1, h2, h3⟩ := hinv
  cases hstep with
  | start => exact ⟨h1, h2, h3⟩
  | pipelineErr err => exact ⟨h1, h2, h3⟩
  | pipelineOk prov menu hd hj hg =>
    have hjobs : (processScanPipelineOk cfg prov menu σ).jobs
        = σ.jobs ++ (createDishes cfg (flattenMenu menu) σ.dishes.length 0).2 := by
      simp only [processScanPipelineOk, pipelineMid]
      split <;> rfl
    have hdishes : (processScanPipelineOk cfg prov menu σ).dishes
        = σ.dishes ++ (createDishes cfg (flattenMenu menu) σ.dishes.length 0).1 := by
      simp only [processScanPipelineOk, pipelineMid]
      split <;> rfl
    have hgen : (processScanPipelineOk cfg prov menu σ).scan.imagesGenerated
        = σ.scan.imagesGenerated := by
      simp only [processScanPipelineOk, pipelineMid]
      split <;> rfl
    have hreq : (processScanPipelineOk cfg prov menu σ).scan.imagesRequested
        = min (totalDishesOf menu) cfg.AUTO_IMAGE_LIMIT := by
      simp only [processScanPipelineOk, pipelineMid]
      split <;> rfl
    refine ⟨?_, ?_, ?_⟩
    · rw [hgen, hg, hjobs, hj, List.nil_append, hreq, createDishes_snd_length,
        Nat.sub_zero, ← totalDishesOf_eq_length]
      simp
    · rw [hdishes, hjobs, hd, hj, List.nil_append, List.nil_append, hreq,
        createDishes_fst_countCompleted, createDishes_snd_length, Nat.sub_zero,
        ← totalDishesOf_eq_length]
      simp
    · rw [hreq]
      omega
  | workerOk i res prov hi =>
    have hjlen : (σ.jobs.erase i).length = σ.jobs.length - 1 :=
      List.length_erase_of_mem hi
    have hjpos : 1 ≤ σ.jobs.length := List.length_pos.mpr (List.ne_nil_of_mem hi)
    unfold runJobOk generateDishImageOk
    cases hget : σ.dishes.get? i with
    | none =>
      refine ⟨?_, ?_, h3⟩ <;> simp only [hjlen] <;> omega
    | some d =>
      have hcnt : countStatus ImageStatus.completed
          (σ.dishes.set i (updateDishImage
            { imageStatus := ImageStatus.completed,
              imageUrl := some res.imageUrl,
              imageProvider := some prov,
              imageCostUsd := some res.cost }
            (updateDishImage { imageStatus := ImageStatus.generating } d)))
          ≤ countStatus ImageStatus.completed σ.dishes + 1 :=
        countP_set_le_succ _ _ _ _
      have hproj : ∀ s1 : Scan,
          ((if σ.scan.imagesRequested ≤ σ.scan.imagesGenerated + 1 then
            updateScanStatus ScanStatus.completed (some "All images generated!") none s1
          else s1).imagesRequested = s1.imagesRequested ∧
          (if σ.scan.imagesRequested ≤ σ.scan.imagesGenerated + 1 then
            updateScanStatus ScanStatus.completed (some "All images generated!") none s1
          else s1).imagesGenerated = s1.imagesGenerated) := by
        intro s1
        constructor <;> split <;> rfl
      refine ⟨?_, ?_, ?_⟩ <;>
        simp only [hjlen, (hproj _).1, (hproj _).2, updateScanProgress,
          Option.getD_some, Option.getD_none] <;> omega
  | workerFail i err hi =>
    have hjlen : (σ.jobs.erase i).length = σ.jobs.length - 1 :=
      List.length_erase_of_mem hi
    have hjpos : 1 ≤ σ.jobs.length := List.length_pos.mpr (List.ne_nil_of_mem hi)
    unfold runJobFail generateDishImageFail
    cases hget : σ.dishes.get? i with
    | none =>
      refine ⟨?_, ?_, h3⟩ <;> simp only [hjlen] <;> omega
    | some d =>
      have hcnt : countStatus ImageStatus.completed
          (σ.dishes.set i (updateDishImage
            { imageStatus := ImageStatus.failed, imageError := some err }
            (updateDishImage { imageStatus := ImageStatus.generating } d)))
          ≤ countStatus ImageStatus.completed σ.dishes + 1 :=
        countP_set_le_succ _ _ _ _
      have hproj : ∀ s1 : Scan,
          ((if σ.scan.imagesRequested ≤ σ.scan.imagesGenerated + 1 then
            updateScanStatus ScanStatus.completed
              (some "Processing complete (some images failed)") none s1
          else s1).imagesRequested = s1.imagesRequested ∧
          (if σ.scan.imagesRequested ≤ σ.scan.imagesGenerated + 1 then
            updateScanStatus ScanStatus.completed
              (some "Processing complete (some images failed)") none s1
          else s1).imagesGenerated = s1.imagesGenerated) := by
        intro s1
        constructor <;> split <;> rfl
      refine ⟨?_, ?_, ?_⟩ <;>
        simp only [hjlen, (hproj _).1, (hproj _).2, updateScanProgress,
          Option.getD_some, Option.getD_none] <;> omega
  | queueRemaining =>
    by_cases h0 : toQueueOf cfg σ = 0
    · unfold generateRemainingImages
      rw [queueRemainingImages_eq_zero cfg σ h3 h0]
      exact ⟨h1, h2, h3⟩
    · have hpos : 0 < toQueueOf cfg σ := Nat.pos_of_ne_zero h0
      have htle : toQueueOf cfg σ
          ≤ cfg.MAX_IMAGES_PER_SCAN - σ.scan.imagesRequested := Nat.min_le_right _ _
      have htlen : toQueueOf cfg σ ≤ (pendingIdxs σ.dishes).length := Nat.min_le_left _ _
      have hcnt := countCompleted_foldl_queue_le
        ((pendingIdxs σ.dishes).take (toQueueOf cfg σ)) σ.dishes
      unfold generateRemainingImages
      rw [queueRemainingImages_eq_pos cfg σ h3 hpos]
      simp only [h0, if_false]
      have hlen : ((pendingIdxs σ.dishes).take (toQueueOf cfg σ)).length
          = toQueueOf cfg σ := by
        rw [List.length_take]
        omega
      refine ⟨?_, ?_, ?_⟩ <;>
        simp only [List.length_append, hlen] <;> omega
  | queueSingle i σ' b h =>
    rcases generateSingleDishImage_inv cfg i σ σ' b h with ⟨_, rfl⟩ | ⟨_, d, hget, hst, hlt, rfl⟩
    · exact ⟨h1, h2, h3⟩
    · have hcnt : countStatus ImageStatus.completed
          (σ.dishes.set i { d with imageStatus := ImageStatus.queued })
          ≤ countStatus ImageStatus.completed σ.dishes :=
        countP_set_le _ _ _ _ (by simp)
      refine ⟨?_, ?_, ?_⟩ <;>
        simp only [List.length_append, List.length_cons, List.length_nil] <;> omega
  | stop =>
    refine ⟨?_, ?_, h3⟩
    · exact h2
    · show countStatus ImageStatus.completed (σ.dishes.map stopDish) + σ.jobs.length
        ≤ σ.scan.imagesRequested
      rw [countCompleted_map_stopDish]
      exact h2
  | force =>
    refine ⟨?_, ?_, h3⟩
    · exact h2
    · show countStatus ImageStatus.completed (σ.dishes.map forceDish) + σ.jobs.length
        ≤ σ.scan.imagesRequested
      rw [countCompleted_map_forceDish]
      exact h2

theorem reachable_counterInv (cfg : Config)
    (hAM : cfg.AUTO_IMAGE_LIMIT ≤ cfg.MAX_IMAGES_PER_SCAN)
    {σ : SysState} (h : Reachable cfg σ) : CounterInv cfg σ := by
  unfold Reachable at h
  induction h with
  | refl =>
    refine ⟨Nat.le_refl 0, ?_, Nat.zero_le _⟩
    simp [initState, countStatus]
  | tail _ hbc ih => exact counterInv_step cfg hAM hbc ih

/-! ## Concrete traces used by the counterexamples and witnesses -/

/-- A vision response with a single extracted dish. -/
def menuOneDish : VisionMenuOutput :=
  { sections := [{ name := "Menu", items := [{ name := "Soup" }] }] }

/-- A vision response with three extracted dishes. -/
def menuThreeDishes : VisionMenuOutput :=
  { sections := [{ name := "Menu",
                   items := [{ name := "Soup" }, { name := "Salad" }, { name := "Steak" }] }] }

/-- After the pipeline on a one-dish menu: the dish is auto-queued,
`imagesRequested = 1`, one worker job scheduled, status `generating`. -/
def traceA1 : SysState :=
  processScanPipelineOk CONFIG "openai" menuOneDish (initState CONFIG)

/-- After the worker job fails: the dish is `failed`, `imagesGenerated = 1`,
status `completed` ("Processing complete (some images failed)"). -/
def traceA2 : SysState := runJobFail 0 "provider error" traceA1

/-- After tapping the failed dish (`generateSingleDishImage`): the dish is
re-queued, `imagesRequested = 2` although the scan has a single dish, and the
completed scan is back in `generating`. -/
def traceA3 : SysState :=
  ((generateSingleDishImage CONFIG 0 traceA2).getD (traceA2, false)).1

/-- After the worker job of the one-dish pipeline succeeds instead: the dish
is `completed` and the scan is `completed` with `imagesGenerated = 1`. -/
def traceB2 : SysState :=
  runJobOk 0 { imageUrl := "img-url", cost := 4/100 } "openai" traceA1

theorem reach_traceA1 : Reachable CONFIG traceA1 :=
  Relation.ReflTransGen.single
    (Step.pipelineOk (initState CONFIG) "openai" menuOneDish rfl rfl rfl)

theorem reach_traceA2 : Reachable CONFIG traceA2 :=
  Relation.ReflTransGen.tail reach_traceA1
    (Step.workerFail traceA1 0 "provider error" (by decide))

theorem step_traceA2_traceA3 : Step CONFIG traceA2 traceA3 :=
  Step.queueSingle traceA2 0 traceA3 true rfl

theorem reach_traceA3 : Reachable CONFIG traceA3 :=
  Relation.ReflTransGen.tail reach_traceA2 step_traceA2_traceA3

/-! ## Claim C1 -/

/-- The counter invariant exactly as claim C1 states it (the lower bound
`0 ≤ imagesGenerated` is inherent in the `Nat`-valued counters of the data
model, which the store declares as non-negative numbers). -/
def ClaimedCounterInv (cfg : Config) (σ : SysState) : Prop :=
  σ.scan.imagesGenerated ≤ σ.scan.imagesRequested ∧
  σ.scan.imagesRequested ≤ min σ.scan.totalDishes cfg.MAX_IMAGES_PER_SCAN

/-- C1, counterexample: the claimed invariant
`imagesRequested ≤ min(totalDishes, MAX_IMAGES_PER_SCAN)` fails on a
reachable state: pipeline a one-dish menu, let its worker job fail, then
re-trigger the failed dish via `queueSingleDishImage` — `imagesRequested`
becomes `2` while `totalDishes = 1`. -/
theorem c1_counterexample :
    Reachable CONFIG traceA3 ∧
    traceA3.scan.totalDishes = 1 ∧
    traceA3.scan.imagesRequested = 2 ∧
    ¬ ClaimedCounterInv CONFIG traceA3 :=
  ⟨reach_traceA3, by decide, by decide, by unfold ClaimedCounterInv; decide⟩

/-- C1 (amended): for every scan at every point in time — after every
sequence of the operations `startProcessing`/`processScanPipeline`,
`generateDishImage`, `queueRemainingImages`, `queueSingleDishImage`,
`stopImageGeneration`, `forceCompleteScan` — the counters satisfy
`0 ≤ imagesGenerated ≤ imagesRequested ≤ MAX_IMAGES_PER_SCAN`, provided
`AUTO_IMAGE_LIMIT ≤ MAX_IMAGES_PER_SCAN` (true of the shipped config); the
claimed upper bound by `totalDishes` does not hold. -/
theorem c1_counters_bounded (cfg : Config)
    (hAM : cfg.AUTO_IMAGE_LIMIT ≤ cfg.MAX_IMAGES_PER_SCAN)
    (σ : SysState) (h : Reachable cfg σ) :
    σ.scan.imagesGenerated ≤ σ.scan.imagesRequested ∧
    σ.scan.imagesRequested ≤ cfg.MAX_IMAGES_PER_SCAN := by
  obtain ⟨i1, _, i3⟩ := reachable_counterInv cfg hAM h
  exact ⟨by omega, i3⟩

/-- C1 witness: the amended bound at the concrete reachable state `traceA2`. -/
theorem c1_counters_bounded_witness :
    traceA2.scan.imagesGenerated ≤ traceA2.scan.imagesRequested ∧
    traceA2.scan.imagesRequested ≤ CONFIG.MAX_IMAGES_PER_SCAN :=
  c1_counters_bounded CONFIG (by decide) traceA2 reach_traceA2

/-! ## Claim C2 -/

/-- C2, counterexample: `completed` is not terminal.  `traceA2` is a
reachable scan with status `completed`; the `queueSingleDishImage` /
`generateSingleDishImage` operation on its failed dish is a legal step that
mutates the status back to `generating`. -/
theorem c2_counterexample :
    Reachable CONFIG traceA2 ∧
    traceA2.scan.status = ScanStatus.completed ∧
    Step CONFIG traceA2 traceA3 ∧
    traceA3.scan.status = ScanStatus.generating :=
  ⟨reach_traceA2, by decide, step_traceA2_traceA3, by decide⟩

/-- C2 (amended): how each operation may mutate the scan status.
`startProcessing` forces `processing`, the failed pipeline forces `failed`,
stop/force always set `completed`, and the worker either leaves the status
alone or completes the scan — but `completed` and `failed` are not terminal:
`queueSingleDishImage` moves a `completed` scan back to `generating`, and
`queueRemainingImages` sets `generating` from any current status (including
`completed` and `failed`) whenever it queues at least one dish. -/
theorem c2_status_transitions (cfg : Config) (σ : SysState) (i : Nat)
    (res : ImageResult) (prov err : String) :
    (startProcessingScan σ).scan.status = ScanStatus.processing ∧
    (pipelineFailed err σ).scan.status = ScanStatus.failed ∧
    (stopImageGeneration σ).scan.status = ScanStatus.completed ∧
    (forceCompleteScan σ).scan.status = ScanStatus.completed ∧
    ((generateDishImageOk i res prov σ).scan.status = σ.scan.status ∨
      (generateDishImageOk i res prov σ).scan.status = ScanStatus.completed) ∧
    ((generateDishImageFail i err σ).scan.status = σ.scan.status ∨
      (generateDishImageFail i err σ).scan.status = ScanStatus.completed) ∧
    (∀ σ' b, queueSingleDishImage cfg i σ = some (σ', b) →
      σ'.scan.status = σ.scan.status ∨
      (σ.scan.status = ScanStatus.completed ∧
        σ'.scan.status = ScanStatus.generating)) ∧
    ((queueRemainingImages cfg σ).1.scan.status = σ.scan.status ∨
      (queueRemainingImages cfg σ).1.scan.status = ScanStatus.generating) := by
  refine ⟨rfl, rfl, rfl, rfl, ?_, ?_, ?_, ?_⟩
  · unfold generateDishImageOk
    cases hget : σ.dishes.get? i with
    | none => exact Or.inl rfl
    | some d =>
      simp only
      split
      · exact Or.inr rfl
      · exact Or.inl rfl
  · unfold generateDishImageFail
    cases hget : σ.dishes.get? i with
    | none => exact Or.inl rfl
    | some d =>
      simp only
      split
      · exact Or.inr rfl
      · exact Or.inl rfl
  · intro σ' b h
    rcases queueSingleDishImage_inv cfg i σ σ' b h with ⟨_, rfl⟩ | ⟨_, d, _, _, _, rfl⟩
    · exact Or.inl rfl
    · by_cases hc : σ.scan.status = ScanStatus.completed
      · exact Or.inr ⟨hc, by simp [hc]⟩
      · exact Or.inl (by simp [hc])
  · unfold queueRemainingImages
    simp only
    split
    · exact Or.inl rfl
    · exact Or.inr rfl

/-- C2 witness: the characterization applied at the concrete state
`traceA2`, projected to the stop operation. -/
theorem c2_status_transitions_witness :
    (stopImageGeneration traceA2).scan.status = ScanStatus.completed :=
  (c2_status_transitions CONFIG traceA2 0 { imageUrl := "u", cost := 0 } "openai" "e").2.2.1

/-! ## Claim C3 -/

/-- C3, counterexample: the Worker has no idempotency guard.  In `traceB2`
dish `0` is already `completed`, yet invoking `generateDishImage` on it is
not a no-op: the dish is re-processed and the scan's `imagesGenerated`
counter climbs from `1` to `2`. -/
theorem c3_counterexample :
    (traceB2.dishes.get? 0).map (fun d => d.imageStatus)
      = some ImageStatus.completed ∧
    traceB2.scan.imagesGenerated = 1 ∧
    (generateDishImageOk 0 { imageUrl := "second-run", cost := 4/100 } "openai"
        traceB2).scan.imagesGenerated = 2 :=
  ⟨by decide, by decide, by decide⟩

/-- C3 (amended): `generateDishImage` performs no idempotency check.  For
any existing dish — whatever its current `imageStatus`, including `completed`
and already-`generating` — the Worker proceeds: it calls the provider,
overwrites the dish to `completed` and increments the scan's
`imagesGenerated`.  The only no-op case is a missing dish; the guard the
spec describes exists only in the `queueSingleDishImage` mutation. -/
theorem c3_worker_has_no_guard (i : Nat) (res : ImageResult) (prov : String)
    (σ : SysState) (d : Dish) (h : σ.dishes.get? i = some d) :
    ((generateDishImageOk i res prov σ).dishes.get? i).map (fun x => x.imageStatus)
      = some ImageStatus.completed ∧
    (generateDishImageOk i res prov σ).scan.imagesGenerated
      = σ.scan.imagesGenerated + 1 := by
  simp only [generateDishImageOk, h]
  refine ⟨?_, ?_⟩
  · rw [List.get?_set_eq, h]
    rfl
  · split <;> rfl

/-- C3 witness: the amended statement at the concrete state `traceB2`, whose
dish `0` is `completed`. -/
theorem c3_worker_has_no_guard_witness :
    ((generateDishImageOk 0 { imageUrl := "second-run", cost := 4/100 } "openai"
        traceB2).dishes.get? 0).map (fun x => x.imageStatus)
      = some ImageStatus.completed ∧
    (generateDishImageOk 0 { imageUrl := "second-run", cost := 4/100 } "openai"
        traceB2).scan.imagesGenerated = traceB2.scan.imagesGenerated + 1 :=
  c3_worker_has_no_guard 0 _ "openai" traceB2 _ rfl

/-! ## Claim C4 -/

/-- C4: the progress percentage of `getScan` (and the identical computation
in `getScanWithDishes`) is a deterministic, side-effect-free function of the
scan's status and the two image counters, with the claimed checkpoint values
and the claimed `60 + 40·(imagesGenerated/imagesRequested)` formula in
`generating`. -/
theorem c4_progress_pure (s : Scan) :
    getScanWithDishesProgress s = getScanProgress s ∧
    (∀ t : Scan, t.status = s.status → t.imagesGenerated = s.imagesGenerated →
      t.imagesRequested = s.imagesRequested → getScanProgress t = getScanProgress s) ∧
    (s.status = ScanStatus.pending → getScanProgress s = 0) ∧
    (s.status = ScanStatus.uploading → getScanProgress s = 10) ∧
    (s.status = ScanStatus.processing → getScanProgress s = 25) ∧
    (s.status = ScanStatus.extracting → getScanProgress s = 50) ∧
    (s.status = ScanStatus.completed → getScanProgress s = 100) ∧
    (s.status = ScanStatus.failed → getScanProgress s = 0) ∧
    (s.status = ScanStatus.generating → 0 < s.imagesRequested →
      getScanProgress s
        = 60 + 40 * ((s.imagesGenerated : ℚ) / (s.imagesRequested : ℚ))) := by
  refine ⟨rfl, ?_, ?_, ?_, ?_, ?_, ?_, ?_, ?_⟩
  · intro t h1 h2 h3
    unfold getScanProgress
    rw [h1, h2, h3]
  all_goals intro h
  · simp [getScanProgress, h]
  · simp [getScanProgress, h]
  · simp [getScanProgress, h]
  · simp [getScanProgress, h]
  · simp [getScanProgress, h]
  · simp [getScanProgress, h]
  · intro hq
    simp only [getScanProgress, h, hq, if_pos]
    ring

/-- C4 witness: the formula at a concrete `generating` scan with
`imagesGenerated = 1`, `imagesRequested = 2`. -/
theorem c4_progress_pure_witness :
    getScanProgress
        { status := ScanStatus.generating, imagesGenerated := 1, imagesRequested := 2 }
      = 60 + 40 * (((1 : Nat) : ℚ) / ((2 : Nat) : ℚ)) :=
  (c4_progress_pure
    { status := ScanStatus.generating,
      imagesGenerated := 1, imagesRequested := 2 }).2.2.2.2.2.2.2.2 rfl (by decide)

/-! ## Claim C5 -/

/-- The repository configuration with automatic image generation turned off
(`AUTO_IMAGE_LIMIT = 0`), the setting of claim C5's scenario. -/
def CONFIGauto0 : Config := { CONFIG with AUTO_IMAGE_LIMIT := 0 }

/-- C5, counterexample: with `AUTO_IMAGE_LIMIT = 0` and three extracted
dishes, the pipeline does reach `completed` with all dishes `pending` and
`imagesRequested = 0`, but it does not transition there *directly*: the
committed state right before the final mutation (`pipelineMid`) has status
`generating`, so the scan passes through `generating`. -/
theorem c5_counterexample :
    (pipelineMid CONFIGauto0 "openai" menuThreeDishes (initState CONFIGauto0)).scan.status
      = ScanStatus.generating ∧
    processScanPipelineOk CONFIGauto0 "openai" menuThreeDishes (initState CONFIGauto0)
      = { pipelineMid CONFIGauto0 "openai" menuThreeDishes (initState CONFIGauto0) with
          scan := updateScanStatus ScanStatus.completed
            (some "Menu processed successfully!") none
            (pipelineMid CONFIGauto0 "openai" menuThreeDishes
              (initState CONFIGauto0)).scan } ∧
    (processScanPipelineOk CONFIGauto0 "openai" menuThreeDishes
        (initState CONFIGauto0)).scan.status = ScanStatus.completed ∧
    (processScanPipelineOk CONFIGauto0 "openai" menuThreeDishes
        (initState CONFIGauto0)).scan.imagesRequested = 0 ∧
    (processScanPipelineOk CONFIGauto0 "openai" menuThreeDishes
        (initState CONFIGauto0)).dishes.map (fun d => d.imageStatus)
      = [ImageStatus.pending, ImageStatus.pending, ImageStatus.pending] :=
  ⟨by decide, rfl, by decide, by decide, by decide⟩

/-- C5 (amended): after successful extraction of `N` dishes the pipeline
creates the dishes with sequential `displayOrder` starting at `0`, the first
`AUTO_IMAGE_LIMIT` dishes (by display order) `queued` and the rest `pending`,
and sets `imagesRequested = min(N, AUTO_IMAGE_LIMIT)`; when zero dishes were
auto-queued the pipeline ends with the scan `completed` — but it first
commits a `generating` status and only then completes, so the scan does pass
through `generating`. -/
theorem c5_pipeline_shape (cfg : Config) (prov : String) (menu : VisionMenuOutput)
    (σ : SysState) (hd : σ.dishes = []) :
    (processScanPipelineOk cfg prov menu σ).dishes.length = totalDishesOf menu ∧
    (∀ k, k < totalDishesOf menu →
      ((processScanPipelineOk cfg prov menu σ).dishes.get? k).map
        (fun d => d.displayOrder) = some k) ∧
    (∀ k d, (processScanPipelineOk cfg prov menu σ).dishes.get? k = some d →
      d.imageStatus = (if k < cfg.AUTO_IMAGE_LIMIT then ImageStatus.queued
        else ImageStatus.pending)) ∧
    (processScanPipelineOk cfg prov menu σ).scan.imagesRequested
      = min (totalDishesOf menu) cfg.AUTO_IMAGE_LIMIT ∧
    (min (totalDishesOf menu) cfg.AUTO_IMAGE_LIMIT = 0 →
      (processScanPipelineOk cfg prov menu σ).scan.status = ScanStatus.completed) ∧
    (0 < min (totalDishesOf menu) cfg.AUTO_IMAGE_LIMIT →
      (processScanPipelineOk cfg prov menu σ).scan.status = ScanStatus.generating) := by
  have hdishes : (processScanPipelineOk cfg prov menu σ).dishes
      = σ.dishes ++ (createDishes cfg (flattenMenu menu) σ.dishes.length 0).1 := by
    simp only [processScanPipelineOk, pipelineMid]
    split <;> rfl
  have hreq : (processScanPipelineOk cfg prov menu σ).scan.imagesRequested
      = min (totalDishesOf menu) cfg.AUTO_IMAGE_LIMIT := by
    simp only [processScanPipelineOk, pipelineMid]
    split <;> rfl
  have hids : (createDishes cfg (flattenMenu menu) σ.dishes.length 0).2.length
      = min (totalDishesOf menu) cfg.AUTO_IMAGE_LIMIT := by
    rw [createDishes_snd_length, Nat.sub_zero, ← totalDishesOf_eq_length]
  have hget : ∀ k, (processScanPipelineOk cfg prov menu σ).dishes.get? k
      = ((flattenMenu menu).get? k).map (mkDish cfg k) := by
    intro k
    rw [hdishes, hd, List.nil_append]
    have h2 := createDishes_fst_get? cfg (flattenMenu menu) ([] : List Dish).length 0 k
    rwa [Nat.zero_add] at h2
  refine ⟨?_, ?_, ?_, hreq, ?_, ?_⟩
  · rw [hdishes, hd, List.nil_append, createDishes_fst_length, totalDishesOf_eq_length]
  · intro k hk
    rw [totalDishesOf_eq_length] at hk
    cases hflat : (flattenMenu menu).get? k with
    | none =>
      exact absurd (List.get?_eq_none.mp hflat) (by omega)
    | some it =>
      rw [hget k, hflat]
      rfl
  · intro k d hkd
    rw [hget k] at hkd
    cases hflat : (flattenMenu menu).get? k with
    | none => rw [hflat] at hkd; cases hkd
    | some it =>
      rw [hflat] at hkd
      simp only [Option.map_some', Option.some.injEq] at hkd
      rw [← hkd]
      rfl
  · intro h0
    have : (createDishes cfg (flattenMenu menu) σ.dishes.length 0).2.isEmpty = true := by
      rw [List.isEmpty_iff, ← List.length_eq_zero, hids, h0]
    simp only [processScanPipelineOk, this, if_true]
    rfl
  · intro h0
    have : (createDishes cfg (flattenMenu menu) σ.dishes.length 0).2.isEmpty = false := by
      rw [List.isEmpty_eq_false_iff_exists_mem]
      rcases List.exists_mem_of_length_pos (by rw [hids]; omega :
        0 < (createDishes cfg (flattenMenu menu) σ.dishes.length 0).2.length) with ⟨x, hx⟩
      exact ⟨x, hx⟩
    simp only [processScanPipelineOk, this, if_false]
    rfl

/-- C5 witness: scenario A — `AUTO_IMAGE_LIMIT = 0`, three extracted dishes:
all dishes `pending` with sequential display order, `imagesRequested = 0`,
final scan status `completed`. -/
theorem c5_pipeline_shape_witness :
    (processScanPipelineOk CONFIGauto0 "openai" menuThreeDishes
        (initState CONFIGauto0)).scan.imagesRequested
      = min (totalDishesOf menuThreeDishes) CONFIGauto0.AUTO_IMAGE_LIMIT ∧
    (processScanPipelineOk CONFIGauto0 "openai" menuThreeDishes
        (initState CONFIGauto0)).scan.status = ScanStatus.completed :=
  ⟨(c5_pipeline_shape CONFIGauto0 "openai" menuThreeDishes
      (initState CONFIGauto0) rfl).2.2.2.1,
   (c5_pipeline_shape CONFIGauto0 "openai" menuThreeDishes
      (initState CONFIGauto0) rfl).2.2.2.2.1 (by decide)⟩

/-! ## Claim C6 -/

/-- C6: when the Worker's generation for a dish throws, the dish becomes
`failed` with the error message recorded, the scan's `imagesGenerated` is
still incremented while `actualCostUsd` is untouched, and when the
incremented count reaches `imagesRequested` the scan is completed with the
partial-failure status message (otherwise the status is untouched). -/
theorem c6_worker_failure (i : Nat) (err : String) (σ : SysState) (d : Dish)
    (h : σ.dishes.get? i = some d) :
    ((generateDishImageFail i err σ).dishes.get? i).map
        (fun x => (x.imageStatus, x.imageError))
      = some (ImageStatus.failed, some err) ∧
    (generateDishImageFail i err σ).scan.imagesGenerated
      = σ.scan.imagesGenerated + 1 ∧
    (generateDishImageFail i err σ).scan.actualCostUsd = σ.scan.actualCostUsd ∧
    (σ.scan.imagesRequested ≤ σ.scan.imagesGenerated + 1 →
      (generateDishImageFail i err σ).scan.status = ScanStatus.completed ∧
      (generateDishImageFail i err σ).scan.statusMessage
        = some "Processing complete (some images failed)") ∧
    (¬ σ.scan.imagesRequested ≤ σ.scan.imagesGenerated + 1 →
      (generateDishImageFail i err σ).scan.status = σ.scan.status) := by
  simp only [generateDishImageFail, h]
  refine ⟨?_, ?_, ?_, ?_, ?_⟩
  · rw [List.get?_set_eq, h]
    rfl
  · split <;> rfl
  · split <;> rfl
  · intro hc
    rw [if_pos hc]
    exact ⟨rfl, rfl⟩
  · intro hc
    rw [if_neg hc]
    rfl

/-- C6 witness: the failure contract at `traceA1`, whose single queued dish
is the last outstanding job (`imagesRequested = 1`, `imagesGenerated = 0`). -/
theorem c6_worker_failure_witness :
    ((generateDishImageFail 0 "provider error" traceA1).dishes.get? 0).map
        (fun x => (x.imageStatus, x.imageError))
      = some (ImageStatus.failed, some "provider error") ∧
    (generateDishImageFail 0 "provider error" traceA1).scan.status
      = ScanStatus.completed :=
  ⟨(c6_worker_failure 0 "provider error" traceA1 _ rfl).1,
   ((c6_worker_failure 0 "provider error" traceA1 _ rfl).2.2.2.1 (by decide)).1⟩

/-! ## Claim C7 -/

/-- C7: triggering single-dish generation on a dish that is already
`completed` or `generating` returns `queued: false` and performs no mutation
at all — the returned state is the input state, so the dish's `imageStatus`
and the scan's `imagesRequested`, `estimatedCostUsd` and `status` are all
unchanged, and no worker job is scheduled. -/
theorem c7_single_trigger_noop (cfg : Config) (i : Nat) (σ : SysState) (d : Dish)
    (h : σ.dishes.get? i = some d)
    (hs : d.imageStatus = ImageStatus.completed ∨
      d.imageStatus = ImageStatus.generating) :
    queueSingleDishImage cfg i σ = some (σ, false) ∧
    generateSingleDishImage cfg i σ = some (σ, false) := by
  have hcond : d.imageStatus = ImageStatus.completed ∨
      d.imageStatus = ImageStatus.generating ∨
      d.imageStatus = ImageStatus.queued :=
    Or.elim hs Or.inl (fun x => Or.inr (Or.inl x))
  have h1 : queueSingleDishImage cfg i σ = some (σ, false) := by
    simp only [queueSingleDishImage, h, if_pos hcond]
  refine ⟨h1, ?_⟩
  simp only [generateSingleDishImage, h1]

/-- C7 witness: the no-op at `traceB2`, whose dish `0` is `completed`. -/
theorem c7_single_trigger_noop_witness :
    queueSingleDishImage CONFIG 0 traceB2 = some (traceB2, false) ∧
    generateSingleDishImage CONFIG 0 traceB2 = some (traceB2, false) :=
  c7_single_trigger_noop CONFIG 0 traceB2 _ rfl (Or.inl rfl)

/-! ## Claim C8 -/

/-- C8: `stopImageGeneration` marks every `queued` dish `skipped`, leaves
every other dish (in particular `generating` ones) untouched, and sets the
scan `completed`, with the count of already-`completed` dishes recorded in
the status message (and written into `imagesGenerated`). -/
theorem c8_stop_generation (σ : SysState) :
    (∀ k d, σ.dishes.get? k = some d →
      (stopImageGeneration σ).dishes.get? k
        = some (if d.imageStatus = ImageStatus.queued
            then { d with imageStatus := ImageStatus.skipped } else d)) ∧
    (stopImageGeneration σ).scan.status = ScanStatus.completed ∧
    (stopImageGeneration σ).scan.imagesGenerated
      = countStatus ImageStatus.completed σ.dishes ∧
    (stopImageGeneration σ).scan.statusMessage
      = some ("Stopped - " ++ toString (countStatus ImageStatus.completed σ.dishes)
          ++ " images completed, "
          ++ toString (countStatus ImageStatus.queued σ.dishes) ++ " skipped") := by
  refine ⟨?_, rfl, rfl, rfl⟩
  intro k d hkd
  show (σ.dishes.map stopDish).get? k = _
  rw [List.get?_map, hkd]
  rfl

/-- A scan mid-generation with one `completed`, one `queued` and one
`generating` dish (the situation of the spec's scenario E). -/
def dishStopQueued : Dish :=
  { name := "b", displayOrder := 1, imageStatus := ImageStatus.queued }

def dishStopGenerating : Dish :=
  { name := "c", displayOrder := 2, imageStatus := ImageStatus.generating }

def stopDemo : SysState :=
  { scan := { status := ScanStatus.generating, totalDishes := 3,
              dishesExtracted := 3, imagesGenerated := 1, imagesRequested := 3 },
    dishes := [ { name := "a", displayOrder := 0, imageStatus := ImageStatus.completed },
                dishStopQueued,
                dishStopGenerating ],
    jobs := [1, 2] }

/-- C8 witness: stopping `stopDemo` completes the scan, records the count in
the message, skips the queued dish and leaves the generating dish alone. -/
theorem c8_stop_generation_witness :
    (stopImageGeneration stopDemo).scan.status = ScanStatus.completed ∧
    (stopImageGeneration stopDemo).scan.statusMessage
      = some ("Stopped - " ++ toString (countStatus ImageStatus.completed stopDemo.dishes)
          ++ " images completed, "
          ++ toString (countStatus ImageStatus.queued stopDemo.dishes) ++ " skipped") ∧
    (stopImageGeneration stopDemo).dishes.get? 1
      = some (if dishStopQueued.imageStatus = ImageStatus.queued
          then { dishStopQueued with imageStatus := ImageStatus.skipped }
          else dishStopQueued) ∧
    (stopImageGeneration stopDemo).dishes.get? 2
      = some (if dishStopGenerating.imageStatus = ImageStatus.queued
          then { dishStopGenerating with imageStatus := ImageStatus.skipped }
          else dishStopGenerating) :=
  ⟨(c8_stop_generation stopDemo).2.1,
   (c8_stop_generation stopDemo).2.2.2,
   (c8_stop_generation stopDemo).1 1 dishStopQueued rfl,
   (c8_stop_generation stopDemo).1 2 dishStopGenerating rfl⟩

/-! ## Claim C9 -/

/-- C9: with `imagesRequested = MAX_IMAGES_PER_SCAN − 1`, two
`queueRemainingImages` transactions in sequence (each Convex mutation runs as
one atomic transaction, so any concurrent execution serializes into this
composition) together queue at most one dish and never push `imagesRequested`
above `MAX_IMAGES_PER_SCAN`. -/
theorem c9_quota_two_calls (cfg : Config) (σ : SysState)
    (hreq : σ.scan.imagesRequested + 1 = cfg.MAX_IMAGES_PER_SCAN) :
    (queueRemainingImages cfg σ).2.queued
      + (queueRemainingImages cfg (queueRemainingImages cfg σ).1).2.queued ≤ 1 ∧
    (queueRemainingImages cfg (queueRemainingImages cfg σ).1).1.scan.imagesRequested
      ≤ cfg.MAX_IMAGES_PER_SCAN := by
  have hle : σ.scan.imagesRequested ≤ cfg.MAX_IMAGES_PER_SCAN := by omega
  have hfull : ∀ σ' : SysState,
      σ'.scan.imagesRequested = cfg.MAX_IMAGES_PER_SCAN →
      queueRemainingImages cfg σ'
        = (σ', { queued := 0, dishIds := [],
                 message := "Max images per scan reached" }) := by
    intro σ' h'
    apply queueRemainingImages_eq_zero cfg σ' (le_of_eq h')
    unfold toQueueOf
    omega
  by_cases h0 : toQueueOf cfg σ = 0
  · rw [queueRemainingImages_eq_zero cfg σ hle h0]
    dsimp only
    rw [queueRemainingImages_eq_zero cfg σ hle h0]
    dsimp only
    omega
  · have hpos : 0 < toQueueOf cfg σ := Nat.pos_of_ne_zero h0
    have ht1 : toQueueOf cfg σ = 1 := by
      unfold toQueueOf at *
      omega
    rw [queueRemainingImages_eq_pos cfg σ hle hpos]
    dsimp only
    rw [hfull _ (by dsimp only; omega)]
    dsimp only
    omega

/-- A completed scan one slot under the quota ceiling with two eligible
(`pending`) dishes. -/
def quotaDemo : SysState :=
  { scan := { status := ScanStatus.completed, totalDishes := 51,
              dishesExtracted := 51, imagesGenerated := 49, imagesRequested := 49 },
    dishes := [ { name := "a", displayOrder := 0, imageStatus := ImageStatus.pending },
                { name := "b", displayOrder := 1, imageStatus := ImageStatus.pending } ],
    jobs := [] }

/-- C9 witness: the quota bound at `quotaDemo` under the shipped config
(`MAX_IMAGES_PER_SCAN = 50`). -/
theorem c9_quota_two_calls_witness :
    (queueRemainingImages CONFIG quotaDemo).2.queued
      + (queueRemainingImages CONFIG
          (queueRemainingImages CONFIG quotaDemo).1).2.queued ≤ 1 ∧
    (queueRemainingImages CONFIG
        (queueRemainingImages CONFIG quotaDemo).1).1.scan.imagesRequested
      ≤ CONFIG.MAX_IMAGES_PER_SCAN :=
  c9_quota_two_calls CONFIG quotaDemo (by decide)

/-! ## Claim C10 -/

/-- C10: both `forceCompleteScan` and `stopImageGeneration` overwrite the
scan's `imagesGenerated` with the number of dishes whose `imageStatus` is
`completed` at call time, so increments previously contributed by failed
generation attempts are discarded from the counter by these operations. -/
theorem c10_overwrite_imagesGenerated (σ : SysState) :
    (forceCompleteScan σ).scan.imagesGenerated
      = countStatus ImageStatus.completed σ.dishes ∧
    (stopImageGeneration σ).scan.imagesGenerated
      = countStatus ImageStatus.completed σ.dishes :=
  ⟨rfl, rfl⟩

end MenuSee
